import Mathlib

/-!
Shallow embedding of `pyocd/probe/raspberrypi_probe.py`: the `SpiWrapper`
bus handle, the `RaspberryPiProbe` debug-probe adapter, and the
`RaspberryPiProbePlugin` descriptor.  Side effects (GPIO configuration and
writes, sleeps, option-event subscription) are recorded as explicit event
traces; Python exceptions are modelled as explicit error values.
-/

/-- Modelled from the spec: the host framework's wire-protocol enumeration
(`DebugProbe.Protocol`, defined outside this file).  The spec names the
members DEFAULT, SWD and JTAG. -/
inductive Protocol where
  | DEFAULT
  | SWD
  | JTAG
deriving DecidableEq, Repr

/-- Modelled from the spec: the host framework's probe-capability
enumeration (`DebugProbe.Capability`, defined outside this file).  The spec
names the members SWJ_SEQUENCE and SWD_SEQUENCE as the only advertised
capabilities. -/
inductive Capability where
  | SWJ_SEQUENCE
  | SWD_SEQUENCE
deriving DecidableEq, Repr

/-- Python exceptions raised by this module. -/
inductive PyError where
  | valueError
  | notImplementedError
deriving DecidableEq, Repr

/-- Observable side effects performed by the adapter, in program order. -/
inductive Event where
  /-- `GPIO.setup(pin, GPIO.OUT)` -/
  | gpioSetupOut (pin : Nat)
  /-- `GPIO.output(pin, level)` -/
  | gpioOutput (pin : Nat) (level : Bool)
  /-- the assignment `self._reset = asserted` inside `assert_reset` -/
  | recordReset (asserted : Bool)
  /-- `sleep(seconds)` -/
  | sleep (seconds : Nat)
  /-- `self.session.options.subscribe(self._change_options, names)` -/
  | subscribeEvents (names : List String)
  /-- `self._spi.open(...)` -/
  | spiOpen
  /-- `self._spi.close()` -/
  | spiClose
  /-- `self._spi.max_speed_hz = hz` -/
  | spiSetClock (hz : Nat)
deriving DecidableEq, Repr

/-- The session option values the probe reads (`session.options.get`).
Durations are carried opaquely (no arithmetic is performed on them). -/
structure SessionOptions where
  nresetGpio : Nat
  resetHoldTime : Nat
  resetPostDelay : Nat
deriving DecidableEq, Repr

def NRESET_GPIO_OPTION : String := "raspberrypiprobe.gpio.nreset"

def DIO_GPIO_OPTION : String := "raspberrypiprobe.gpio.dio"

def CLK_GPIO_OPTION : String := "raspberrypiprobe.gpio.clk"

/-- State of an `SpiWrapper` handle.  `is_close` models the attribute of
that name that Python's `close` dynamically creates: `none` while the
attribute does not exist. -/
structure SpiWrapper where
  bus : Nat
  device : Nat
  is_open : Bool
  is_close : Option Bool
  max_speed_hz : Option Nat
deriving DecidableEq, Repr

/-- `SpiWrapper.__init__(bus, device)` -/
def SpiWrapper.init (bus device : Nat) : SpiWrapper :=
  { bus := bus, device := device, is_open := false, is_close := none,
    max_speed_hz := none }

/-- `SpiWrapper.open`: opens the device and sets `is_open = True`. -/
def SpiWrapper.open (w : SpiWrapper) : SpiWrapper :=
  { w with is_open := true }

/-- `SpiWrapper.close`: closes the device and assigns `self.is_close = False`
(note: it does not touch `is_open`). -/
def SpiWrapper.close (w : SpiWrapper) : SpiWrapper :=
  { w with is_close := some false }

/-- `SpiWrapper.set_clock`: `self._spi.max_speed_hz = int(frequency)`. -/
def SpiWrapper.set_clock (w : SpiWrapper) (frequency : Nat) : SpiWrapper :=
  { w with max_speed_hz := some frequency }

/-- Longest leading run of decimal digits of a character list, with the
remainder: the semantics of a greedy regex group `(\d+)` (possibly empty). -/
def takeDigits : List Char → List Char × List Char
  | [] => ([], [])
  | c :: cs =>
      if c.isDigit then
        let r := takeDigits cs
        (c :: r.1, r.2)
      else ([], c :: cs)

/-- Value of a digit string, as Python's `int()` computes it. -/
def digitsToNat (ds : List Char) : Nat :=
  ds.foldl (fun acc c => acc * 10 + (c.toNat - 48)) 0

/-- Strips an exact prefix from a character list, or fails. -/
def dropPrefixChars : List Char → List Char → Option (List Char)
  | [], cs => some cs
  | _ :: _, [] => none
  | p :: ps, c :: cs => if c = p then dropPrefixChars ps cs else none

/-- The match performed by `re.match(r'/dev/spidev(\d+)\.(\d+)', s)` over
the character list of `s`, then the handle construction from the two digit
groups.  `re.match` anchors only at the start of the string, so trailing
characters are permitted.  `none` models the `ValueError` raised when the
match fails. -/
def from_chars (cs : List Char) : Option SpiWrapper :=
  match dropPrefixChars "/dev/spidev".data cs with
  | none => none
  | some rest =>
      if (takeDigits rest).1 = [] then none
      else
        match (takeDigits rest).2 with
        | [] => none
        | c :: rest2 =>
            if c = '.' then
              if (takeDigits rest2).1 = [] then none
              else some (SpiWrapper.init (digitsToNat (takeDigits rest).1)
                (digitsToNat (takeDigits rest2).1))
            else none

/-- `SpiWrapper.from_str`. -/
def SpiWrapper.from_str (s : String) : Option SpiWrapper :=
  from_chars s.data

/-- State of a `RaspberryPiProbe`: the wrapped SPI handle and the instance
attributes `_is_connected` and `_reset`, plus the list of option-change
event names the probe has subscribed to. -/
structure ProbeState where
  spi : SpiWrapper
  is_connected : Bool
  reset : Bool
  subscriptions : List String
deriving DecidableEq, Repr

/-- `RaspberryPiProbe.__init__(spi)` -/
def ProbeState.init (spi : SpiWrapper) : ProbeState :=
  { spi := spi, is_connected := false, reset := false, subscriptions := [] }

/-- Result of a probe method that may both mutate state and raise: the
post-state, the emitted effects, and the exception if one was raised. -/
structure StepResult where
  state : ProbeState
  events : List Event
  err : Option PyError
deriving DecidableEq, Repr

namespace RaspberryPiProbe

/-- `supported_wire_protocols` property: `[Protocol.DEFAULT, Protocol.SWD]`. -/
def supported_wire_protocols (_s : ProbeState) : List Protocol :=
  [Protocol.DEFAULT, Protocol.SWD]

/-- `wire_protocol` property: SWD when connected, else None. -/
def wire_protocol (s : ProbeState) : Option Protocol :=
  if s.is_connected then some Protocol.SWD else none

/-- `is_open` property: delegates to the SPI handle's `is_open`. -/
def is_open (s : ProbeState) : Bool :=
  s.spi.is_open

/-- `capabilities` property: `{SWJ_SEQUENCE, SWD_SEQUENCE}`. -/
def capabilities (_s : ProbeState) : List Capability :=
  [Capability.SWJ_SEQUENCE, Capability.SWD_SEQUENCE]

/-- `open`: opens the SPI handle. -/
def openProbe (s : ProbeState) : ProbeState × List Event :=
  ({ s with spi := s.spi.open }, [Event.spiOpen])

/-- `close`: closes the SPI handle. -/
def closeProbe (s : ProbeState) : ProbeState × List Event :=
  ({ s with spi := s.spi.close }, [Event.spiClose])

/-- `connect(protocol)`: defaults None/DEFAULT to SWD, rejects any other
protocol with a ValueError before touching state, then marks the probe
connected, configures the nRESET pin as an output, and subscribes the
option-change handler to the DIO and CLK option events. -/
def connect (opts : SessionOptions) (s : ProbeState) (protocol : Option Protocol) :
    StepResult :=
  let p := match protocol with
    | none => Protocol.SWD
    | some Protocol.DEFAULT => Protocol.SWD
    | some q => q
  match p with
  | Protocol.SWD =>
      let s1 := { s with is_connected := true }
      let s2 := { s1 with
        subscriptions := s1.subscriptions ++ [DIO_GPIO_OPTION, CLK_GPIO_OPTION] }
      { state := s2,
        events := [Event.gpioSetupOut opts.nresetGpio,
                   Event.subscribeEvents [DIO_GPIO_OPTION, CLK_GPIO_OPTION]],
        err := none }
  | _ => { state := s, events := [], err := some PyError.valueError }

/-- `disconnect`: clears `_is_connected`. -/
def disconnect (s : ProbeState) : ProbeState :=
  { s with is_connected := false }

/-- `set_clock(frequency)`: delegates to the SPI handle. -/
def set_clock (s : ProbeState) (frequency : Nat) : ProbeState × List Event :=
  ({ s with spi := s.spi.set_clock frequency }, [Event.spiSetClock frequency])

/-- `assert_reset(asserted)`: writes level False to the nRESET GPIO pin
(unconditionally), then records the asserted flag in `_reset`. -/
def assert_reset (opts : SessionOptions) (s : ProbeState) (asserted : Bool) :
    ProbeState × List Event :=
  ({ s with reset := asserted },
   [Event.gpioOutput opts.nresetGpio false, Event.recordReset asserted])

/-- `reset()`: `assert_reset(True)`, sleep `reset.hold_time`,
`assert_reset(False)`, sleep `reset.post_delay`. -/
def reset (opts : SessionOptions) (s : ProbeState) : ProbeState × List Event :=
  let r1 := assert_reset opts s true
  let r2 := assert_reset opts r1.1 false
  (r2.1,
   r1.2 ++ [Event.sleep opts.resetHoldTime] ++ r2.2 ++
     [Event.sleep opts.resetPostDelay])

/-- `is_reset_asserted()`: returns the recorded `_reset` flag. -/
def is_reset_asserted (s : ProbeState) : Bool :=
  s.reset

/-- `swj_sequence(length, bits)`: the body is `pass`, so it returns None
without raising and without transferring anything. -/
def swj_sequence (_s : ProbeState) (_length _bits : Nat) : Except PyError Unit :=
  Except.ok ()

/-- `swd_sequence(sequences)`: raises NotImplementedError. -/
def swd_sequence (_s : ProbeState) (_sequences : List (Nat × Option Nat)) :
    Except PyError (Nat × List (List Nat)) :=
  Except.error PyError.notImplementedError

/-- `read_dp(addr, now)`: raises NotImplementedError. -/
def read_dp (_s : ProbeState) (_addr : Nat) (_now : Bool) : Except PyError Nat :=
  Except.error PyError.notImplementedError

/-- `write_dp(addr, data)`: raises NotImplementedError. -/
def write_dp (_s : ProbeState) (_addr _data : Nat) : Except PyError Unit :=
  Except.error PyError.notImplementedError

/-- `read_ap(addr, now)`: raises NotImplementedError. -/
def read_ap (_s : ProbeState) (_addr : Nat) (_now : Bool) : Except PyError Nat :=
  Except.error PyError.notImplementedError

/-- `write_ap(addr, data)`: raises NotImplementedError. -/
def write_ap (_s : ProbeState) (_addr _data : Nat) : Except PyError Unit :=
  Except.error PyError.notImplementedError

/-- `read_ap_multiple(addr, count, now)`: raises NotImplementedError. -/
def read_ap_multiple (_s : ProbeState) (_addr _count : Nat) (_now : Bool) :
    Except PyError (List Nat) :=
  Except.error PyError.notImplementedError

/-- `write_ap_multiple(addr, values)`: raises NotImplementedError. -/
def write_ap_multiple (_s : ProbeState) (_addr : Nat) (_values : List Nat) :
    Except PyError Unit :=
  Except.error PyError.notImplementedError

/-- `swo_start(baudrate)`: raises NotImplementedError. -/
def swo_start (_s : ProbeState) (_baudrate : Nat) : Except PyError Unit :=
  Except.error PyError.notImplementedError

/-- `swo_stop()`: raises NotImplementedError. -/
def swo_stop (_s : ProbeState) : Except PyError Unit :=
  Except.error PyError.notImplementedError

/-- `swo_read()`: raises NotImplementedError. -/
def swo_read (_s : ProbeState) : Except PyError (List Nat) :=
  Except.error PyError.notImplementedError

/-- `_change_options(event)`: the option-change handler.  A notification
for the nRESET option re-runs `GPIO.setup(pin, GPIO.OUT)`; notifications
for the DIO and CLK options raise NotImplementedError. -/
def _change_options (opts : SessionOptions) (s : ProbeState) (event : String) :
    StepResult :=
  if event = NRESET_GPIO_OPTION then
    { state := s, events := [Event.gpioSetupOut opts.nresetGpio], err := none }
  else if event = DIO_GPIO_OPTION then
    { state := s, events := [], err := some PyError.notImplementedError }
  else if event = CLK_GPIO_OPTION then
    { state := s, events := [], err := some PyError.notImplementedError }
  else
    { state := s, events := [], err := none }

end RaspberryPiProbe

/-- Static option metadata (`OptionInfo(name, type, default, help)`). -/
structure OptionInfo where
  name : String
  default : Nat
  help : String
deriving DecidableEq, Repr

namespace RaspberryPiProbePlugin

/-- `name` property of the plugin. -/
def pluginName : String := "raspberrypiprobe"

/-- `description` property of the plugin. -/
def description : String := "Raspberry Pi GPIO Probe"

/-- `options` property of the plugin, exactly as the source lists the three
`OptionInfo` entries (every entry has Python type `int`). -/
def options : List OptionInfo :=
  [ { name := NRESET_GPIO_OPTION, default := 23,
      help := "GPIO number (not physical pin) for SWCLK." },
    { name := DIO_GPIO_OPTION, default := 24,
      help := "GPIO number (not physical pin) for SWDIO." },
    { name := DIO_GPIO_OPTION, default := 25,
      help := "GPIO number (not physical pin) for SWCLK." } ]

end RaspberryPiProbePlugin

/-- One invocation of a probe method by the host framework. -/
inductive Op where
  | opOpen
  | opClose
  | opConnect (protocol : Option Protocol)
  | opDisconnect
  | opSetClock (frequency : Nat)
  | opAssertReset (asserted : Bool)
  | opReset
  | opIsResetAsserted
  | opSwjSequence (length bits : Nat)
  | opSwdSequence (sequences : List (Nat × Option Nat))
  | opReadDp (addr : Nat) (now : Bool)
  | opWriteDp (addr data : Nat)
  | opReadAp (addr : Nat) (now : Bool)
  | opWriteAp (addr data : Nat)
  | opReadApMultiple (addr count : Nat) (now : Bool)
  | opWriteApMultiple (addr : Nat) (values : List Nat)
  | opSwoStart (baudrate : Nat)
  | opSwoStop
  | opSwoRead
  | opChangeOptions (event : String)
deriving DecidableEq, Repr

open RaspberryPiProbe in
/-- Effect of one method invocation on the probe state, as a `StepResult`.
Methods declared `raise NotImplementedError` leave the state untouched and
report the exception. -/
def step (opts : SessionOptions) (s : ProbeState) : Op → StepResult
  | Op.opOpen => let r := openProbe s; ⟨r.1, r.2, none⟩
  | Op.opClose => let r := closeProbe s; ⟨r.1, r.2, none⟩
  | Op.opConnect p => connect opts s p
  | Op.opDisconnect => ⟨disconnect s, [], none⟩
  | Op.opSetClock f => let r := set_clock s f; ⟨r.1, r.2, none⟩
  | Op.opAssertReset b => let r := assert_reset opts s b; ⟨r.1, r.2, none⟩
  | Op.opReset => let r := reset opts s; ⟨r.1, r.2, none⟩
  | Op.opIsResetAsserted => ⟨s, [], none⟩
  | Op.opSwjSequence len bits =>
      ⟨s, [], (swj_sequence s len bits).toOption.elim
        (some PyError.notImplementedError) (fun _ => none)⟩
  | Op.opSwdSequence seqs =>
      ⟨s, [], match swd_sequence s seqs with
              | Except.error e => some e | Except.ok _ => none⟩
  | Op.opReadDp addr now =>
      ⟨s, [], match read_dp s addr now with
              | Except.error e => some e | Except.ok _ => none⟩
  | Op.opWriteDp addr data =>
      ⟨s, [], match write_dp s addr data with
              | Except.error e => some e | Except.ok _ => none⟩
  | Op.opReadAp addr now =>
      ⟨s, [], match read_ap s addr now with
              | Except.error e => some e | Except.ok _ => none⟩
  | Op.opWriteAp addr data =>
      ⟨s, [], match write_ap s addr data with
              | Except.error e => some e | Except.ok _ => none⟩
  | Op.opReadApMultiple addr count now =>
      ⟨s, [], match read_ap_multiple s addr count now with
              | Except.error e => some e | Except.ok _ => none⟩
  | Op.opWriteApMultiple addr values =>
      ⟨s, [], match write_ap_multiple s addr values with
              | Except.error e => some e | Except.ok _ => none⟩
  | Op.opSwoStart baud =>
      ⟨s, [], match swo_start s baud with
              | Except.error e => some e | Except.ok _ => none⟩
  | Op.opSwoStop =>
      ⟨s, [], match swo_stop s with
              | Except.error e => some e | Except.ok _ => none⟩
  | Op.opSwoRead =>
      ⟨s, [], match swo_read s with
              | Except.error e => some e | Except.ok _ => none⟩
  | Op.opChangeOptions ev => _change_options opts s ev

/-- Runs a sequence of method invocations, collecting the full event trace.
Each invocation is issued separately by the framework, so a raised
exception does not stop later invocations. -/
def run (opts : SessionOptions) (s : ProbeState) : List Op → ProbeState × List Event
  | [] => (s, [])
  | op :: ops =>
      let r := step opts s op
      let rest := run opts r.state ops
      (rest.1, r.events ++ rest.2)

/-- Replays only the `recordReset` events of a trace over an initial flag
value: the value the last `assert_reset` recorded, if any. -/
def applyRecords (evs : List Event) (r : Bool) : Bool :=
  evs.foldl (fun acc e => match e with
    | Event.recordReset b => b
    | _ => acc) r

/-- The pin/level pairs a trace writes to GPIO lines, in order. -/
def gpioWrites (evs : List Event) : List (Nat × Bool) :=
  evs.filterMap fun e => match e with
    | Event.gpioOutput p l => some (p, l)
    | _ => none

/-- Concrete session options used by witnesses. -/
def opts0 : SessionOptions := ⟨23, 1, 2⟩

/-- Concrete probe state used by witnesses. -/
def probe0 : ProbeState := ProbeState.init (SpiWrapper.init 0 0)

/-- A string has a prefix of the shape the regex `/dev/spidev(\d+)\.(\d+)`
matches: the literal head, a nonempty digit group, a dot, a nonempty digit
group, and then arbitrary trailing characters. -/
def prefixMatches (s : String) : Prop :=
  ∃ B D t : List Char, B ≠ [] ∧ B.all Char.isDigit = true ∧ D ≠ [] ∧
    D.all Char.isDigit = true ∧
    s.data = "/dev/spidev".data ++ (B ++ '.' :: (D ++ t))

/-- The parse the claim describes, following the spec's words: the entire
string must have the form `/dev/spidev<B>.<D>` with decimal digit groups
`B` and `D` (anchored at both ends, unlike the source's `re.match`). -/
def exactFormParse (s : String) : Option (Nat × Nat) :=
  match dropPrefixChars "/dev/spidev".data s.data with
  | none => none
  | some rest =>
      if (takeDigits rest).1 = [] then none
      else
        match (takeDigits rest).2 with
        | [] => none
        | c :: rest2 =>
            if c = '.' then
              if (takeDigits rest2).1 = [] then none
              else if (takeDigits rest2).2 = [] then
                some (digitsToNat (takeDigits rest).1, digitsToNat (takeDigits rest2).1)
              else none
            else none

/-- C1 (counterexample): `swj_sequence` does not raise: on a concrete probe
state it silently returns None (modelled as `Except.ok ()`), contradicting
the claim that every listed operation fails with a not-implemented signal. -/
theorem swj_sequence_returns_silently :
    RaspberryPiProbe.swj_sequence probe0 8 255 = Except.ok () := rfl

/-- C1 (amended): every data-transfer and trace operation except
`swj_sequence` raises NotImplementedError on every probe state and
argument; `swj_sequence` is a no-op that silently returns None. -/
theorem stub_operations_raise (s : ProbeState) (addr data count baudrate : Nat)
    (now : Bool) (values : List Nat) (sequences : List (Nat × Option Nat))
    (length bits : Nat) :
    RaspberryPiProbe.read_dp s addr now = Except.error PyError.notImplementedError ∧
    RaspberryPiProbe.write_dp s addr data = Except.error PyError.notImplementedError ∧
    RaspberryPiProbe.read_ap s addr now = Except.error PyError.notImplementedError ∧
    RaspberryPiProbe.write_ap s addr data = Except.error PyError.notImplementedError ∧
    RaspberryPiProbe.read_ap_multiple s addr count now =
      Except.error PyError.notImplementedError ∧
    RaspberryPiProbe.write_ap_multiple s addr values =
      Except.error PyError.notImplementedError ∧
    RaspberryPiProbe.swd_sequence s sequences =
      Except.error PyError.notImplementedError ∧
    RaspberryPiProbe.swo_start s baudrate = Except.error PyError.notImplementedError ∧
    RaspberryPiProbe.swo_stop s = Except.error PyError.notImplementedError ∧
    RaspberryPiProbe.swo_read s = Except.error PyError.notImplementedError ∧
    RaspberryPiProbe.swj_sequence s length bits = Except.ok () :=
  ⟨rfl, rfl, rfl, rfl, rfl, rfl, rfl, rfl, rfl, rfl, rfl⟩

/-- C2: `connect` with None, DEFAULT or SWD succeeds, marks the probe
connected and reports wire protocol SWD; any other protocol value (JTAG)
raises ValueError and leaves the whole probe state (hence `_is_connected`,
`wire_protocol` and `is_open`) unchanged. -/
theorem connect_protocol_spec (opts : SessionOptions) (s : ProbeState)
    (protocol : Option Protocol) :
    ((protocol = none ∨ protocol = some Protocol.DEFAULT ∨
        protocol = some Protocol.SWD) →
      (RaspberryPiProbe.connect opts s protocol).err = none ∧
      (RaspberryPiProbe.connect opts s protocol).state.is_connected = true ∧
      RaspberryPiProbe.wire_protocol (RaspberryPiProbe.connect opts s protocol).state =
        some Protocol.SWD) ∧
    ((protocol ≠ none ∧ protocol ≠ some Protocol.DEFAULT ∧
        protocol ≠ some Protocol.SWD) →
      (RaspberryPiProbe.connect opts s protocol).err = some PyError.valueError ∧
      (RaspberryPiProbe.connect opts s protocol).state = s ∧
      RaspberryPiProbe.is_open (RaspberryPiProbe.connect opts s protocol).state =
        RaspberryPiProbe.is_open s ∧
      RaspberryPiProbe.wire_protocol (RaspberryPiProbe.connect opts s protocol).state =
        RaspberryPiProbe.wire_protocol s) := by
  constructor
  · rintro (rfl | rfl | rfl) <;>
      exact ⟨rfl, rfl, rfl⟩
  · rintro ⟨h1, h2, h3⟩
    match protocol with
    | none => exact absurd rfl h1
    | some Protocol.DEFAULT => exact absurd rfl h2
    | some Protocol.SWD => exact absurd rfl h3
    | some Protocol.JTAG => exact ⟨rfl, rfl, rfl, rfl⟩

/-- C2 (witness): instantiates the theorem at JTAG and at None on concrete
options and state. -/
theorem connect_protocol_spec_witness :
    ((RaspberryPiProbe.connect opts0 probe0 (some Protocol.JTAG)).err =
        some PyError.valueError ∧
      (RaspberryPiProbe.connect opts0 probe0 (some Protocol.JTAG)).state = probe0 ∧
      RaspberryPiProbe.is_open
          (RaspberryPiProbe.connect opts0 probe0 (some Protocol.JTAG)).state =
        RaspberryPiProbe.is_open probe0 ∧
      RaspberryPiProbe.wire_protocol
          (RaspberryPiProbe.connect opts0 probe0 (some Protocol.JTAG)).state =
        RaspberryPiProbe.wire_protocol probe0) ∧
    ((RaspberryPiProbe.connect opts0 probe0 none).err = none ∧
      (RaspberryPiProbe.connect opts0 probe0 none).state.is_connected = true ∧
      RaspberryPiProbe.wire_protocol (RaspberryPiProbe.connect opts0 probe0 none).state =
        some Protocol.SWD) :=
  ⟨(connect_protocol_spec opts0 probe0 (some Protocol.JTAG)).2
      ⟨by decide, by decide, by decide⟩,
   (connect_protocol_spec opts0 probe0 none).1 (Or.inl rfl)⟩

/-- C3: `reset()` produces exactly this effect trace, in this order: drive
nRESET low and record asserted (the `assert_reset(True)` call), sleep for
the configured `reset.hold_time`, drive nRESET low and record deasserted
(the `assert_reset(False)` call), sleep for the configured
`reset.post_delay`; the final state records reset deasserted. -/
theorem reset_effect_order (opts : SessionOptions) (s : ProbeState) :
    (RaspberryPiProbe.reset opts s).2 =
      [Event.gpioOutput opts.nresetGpio false, Event.recordReset true,
       Event.sleep opts.resetHoldTime,
       Event.gpioOutput opts.nresetGpio false, Event.recordReset false,
       Event.sleep opts.resetPostDelay] ∧
    (RaspberryPiProbe.reset opts s).1 = { s with reset := false } :=
  ⟨rfl, rfl⟩

/-- C6: in every probe state, `capabilities` holds exactly SWJ_SEQUENCE and
SWD_SEQUENCE, and `supported_wire_protocols` includes DEFAULT and SWD and
never JTAG. -/
theorem capabilities_static (s : ProbeState) :
    (∀ c : Capability, c ∈ RaspberryPiProbe.capabilities s ↔
      (c = Capability.SWJ_SEQUENCE ∨ c = Capability.SWD_SEQUENCE)) ∧
    Protocol.DEFAULT ∈ RaspberryPiProbe.supported_wire_protocols s ∧
    Protocol.SWD ∈ RaspberryPiProbe.supported_wire_protocols s ∧
    Protocol.JTAG ∉ RaspberryPiProbe.supported_wire_protocols s := by
  refine ⟨fun c => ?_, ?_, ?_, ?_⟩ <;>
    simp [RaspberryPiProbe.capabilities, RaspberryPiProbe.supported_wire_protocols]

/-- C9: for both argument values, `assert_reset` writes level False (low)
to the configured nRESET GPIO pin — the only GPIO write it performs — and
the argument affects nothing but the recorded `_reset` flag. -/
theorem assert_reset_drives_low (opts : SessionOptions) (s : ProbeState) (b : Bool) :
    gpioWrites (RaspberryPiProbe.assert_reset opts s b).2 =
      [(opts.nresetGpio, false)] ∧
    (RaspberryPiProbe.assert_reset opts s b).1 = { s with reset := b } ∧
    gpioWrites (RaspberryPiProbe.assert_reset opts s true).2 =
      gpioWrites (RaspberryPiProbe.assert_reset opts s false).2 :=
  ⟨rfl, rfl, rfl⟩

/-- C10: `SpiWrapper.close` leaves `is_open` untouched (it assigns the
distinct `is_close` attribute instead), so once `open()` has succeeded the
probe's `is_open` property still reports True after `close()`. -/
theorem close_does_not_clear_is_open (w : SpiWrapper) (s : ProbeState) :
    (SpiWrapper.close w).is_open = w.is_open ∧
    (SpiWrapper.close w).is_close = some false ∧
    (SpiWrapper.close (SpiWrapper.open w)).is_open = true ∧
    RaspberryPiProbe.is_open
        (RaspberryPiProbe.closeProbe (RaspberryPiProbe.openProbe s).1).1 = true :=
  ⟨rfl, rfl, rfl, rfl⟩

/-- C7 (counterexample): on a concrete connect, the subscription list is
exactly the DIO and CLK option names — two event names, with the
nRESET-role event name absent — contradicting the claim that connect
subscribes one event name per GPIO role (reset, data, clock). -/
theorem connect_subscribes_two_events :
    (RaspberryPiProbe.connect opts0 probe0 none).state.subscriptions =
      [DIO_GPIO_OPTION, CLK_GPIO_OPTION] ∧
    NRESET_GPIO_OPTION ∉
      (RaspberryPiProbe.connect opts0 probe0 none).state.subscriptions := by
  refine ⟨rfl, ?_⟩
  decide

/-- C7 (amended): on connect, the adapter subscribes the option-change
handler to exactly the data-pin and clock-pin option events (the reset-pin
event is not subscribed); the handler itself re-initializes the nRESET pin
as an output on an nRESET-option notification and raises
NotImplementedError on data-pin and clock-pin notifications. -/
theorem connect_subscription_and_handler (opts : SessionOptions) (s : ProbeState) :
    (RaspberryPiProbe.connect opts s none).state.subscriptions =
      s.subscriptions ++ [DIO_GPIO_OPTION, CLK_GPIO_OPTION] ∧
    Event.subscribeEvents [DIO_GPIO_OPTION, CLK_GPIO_OPTION] ∈
      (RaspberryPiProbe.connect opts s none).events ∧
    (RaspberryPiProbe._change_options opts s NRESET_GPIO_OPTION).events =
      [Event.gpioSetupOut opts.nresetGpio] ∧
    (RaspberryPiProbe._change_options opts s NRESET_GPIO_OPTION).err = none ∧
    (RaspberryPiProbe._change_options opts s DIO_GPIO_OPTION).err =
      some PyError.notImplementedError ∧
    (RaspberryPiProbe._change_options opts s CLK_GPIO_OPTION).err =
      some PyError.notImplementedError := by
  refine ⟨rfl, ?_, ?_, ?_, ?_, ?_⟩
  · exact List.mem_cons_of_mem _ (List.mem_singleton.mpr rfl)
  all_goals simp [RaspberryPiProbe._change_options, NRESET_GPIO_OPTION,
    DIO_GPIO_OPTION, CLK_GPIO_OPTION]

/-- C8: the plugin's declared options list does not contain one option per
GPIO role: its option names are nreset, dio, dio — the CLK option name is
never declared (the third entry reuses the DIO name, while its default 25
and its help text say SWCLK) — and the nreset entry's help text also
describes SWCLK rather than reset. -/
theorem plugin_options_misdeclared :
    RaspberryPiProbePlugin.options.map OptionInfo.name =
      [NRESET_GPIO_OPTION, DIO_GPIO_OPTION, DIO_GPIO_OPTION] ∧
    CLK_GPIO_OPTION ∉ RaspberryPiProbePlugin.options.map OptionInfo.name ∧
    RaspberryPiProbePlugin.options.map OptionInfo.default = [23, 24, 25] ∧
    RaspberryPiProbePlugin.options.map OptionInfo.help =
      ["GPIO number (not physical pin) for SWCLK.",
       "GPIO number (not physical pin) for SWDIO.",
       "GPIO number (not physical pin) for SWCLK."] := by
  refine ⟨rfl, ?_, rfl, rfl⟩
  decide

/-- `dropPrefixChars` succeeds exactly on lists extending the prefix, and
returns the remainder. -/
theorem dropPrefixChars_iff (p : List Char) :
    ∀ l r : List Char, dropPrefixChars p l = some r ↔ l = p ++ r := by
  induction p with
  | nil =>
      intro l r
      simp [dropPrefixChars]
  | cons c p ih =>
      intro l r
      cases l with
      | nil => simp [dropPrefixChars]
      | cons a l =>
          by_cases hac : a = c
          · subst hac
            simp [dropPrefixChars, ih]
          · simp [dropPrefixChars, hac]

/-- `takeDigits` splits its input into an all-digit prefix and a remainder
whose first character, if any, is not a digit. -/
theorem takeDigits_parts :
    ∀ l : List Char, (takeDigits l).1 ++ (takeDigits l).2 = l ∧
      (takeDigits l).1.all Char.isDigit = true ∧
      ∀ c, (takeDigits l).2.head? = some c → c.isDigit = false := by
  intro l
  induction l with
  | nil => exact ⟨rfl, rfl, fun c h => by simp [takeDigits] at h⟩
  | cons a t ih =>
      obtain ⟨h1, h2, h3⟩ := ih
      by_cases ha : a.isDigit
      · refine ⟨?_, ?_, ?_⟩
        · simp [takeDigits, ha, h1]
        · simp [takeDigits, ha, h2, List.all_cons]
        · intro c hc
          apply h3
          simpa [takeDigits, ha] using hc
      · refine ⟨?_, ?_, ?_⟩
        · simp [takeDigits, ha]
        · simp [takeDigits, ha]
        · intro c hc
          simp [takeDigits, ha] at hc
          rw [← hc]
          simpa using ha

/-- Maximal munch: on an all-digit block followed by a non-digit (or
nothing), `takeDigits` takes exactly the block. -/
theorem takeDigits_maximal (B t : List Char) (hB : B.all Char.isDigit = true)
    (ht : ∀ c, t.head? = some c → c.isDigit = false) :
    takeDigits (B ++ t) = (B, t) := by
  induction B with
  | nil =>
      cases t with
      | nil => rfl
      | cons c t =>
          have hc : c.isDigit = false := ht c rfl
          simp [takeDigits, hc]
  | cons b B ih =>
      rw [List.all_cons, Bool.and_eq_true] at hB
      simp [takeDigits, hB.1, ih hB.2]

/-- `takeDigits` on a digit-headed list returns a nonempty digit group. -/
theorem takeDigits_fst_ne_nil (c : Char) (l : List Char) (hc : c.isDigit = true) :
    (takeDigits (c :: l)).1 ≠ [] := by
  simp [takeDigits, hc]

/-- Stripping a prefix from a list that starts with it yields the rest. -/
theorem dropPrefixChars_append (p r : List Char) :
    dropPrefixChars p (p ++ r) = some r := by
  induction p with
  | nil => rfl
  | cons c p ih => simp [dropPrefixChars, ih]

/-- Evaluation of the regex match on a decomposed input: literal prefix,
nonempty digit group, dot, nonempty digit group, then a remainder that does
not begin with a digit. -/
theorem from_chars_eval (B D t : List Char) (hBne : B ≠ [])
    (hBd : B.all Char.isDigit = true) (hDne : D ≠ [])
    (hDd : D.all Char.isDigit = true)
    (ht : ∀ c, t.head? = some c → c.isDigit = false) :
    from_chars ("/dev/spidev".data ++ (B ++ '.' :: (D ++ t))) =
      some (SpiWrapper.init (digitsToNat B) (digitsToNat D)) := by
  have htake1 : takeDigits (B ++ '.' :: (D ++ t)) = (B, '.' :: (D ++ t)) :=
    takeDigits_maximal B ('.' :: (D ++ t)) hBd
      (by intro c hc; simp at hc; rw [← hc]; decide)
  have htake2 : takeDigits (D ++ t) = (D, t) := takeDigits_maximal D t hDd ht
  simp only [from_chars, dropPrefixChars_append, htake1, htake2]
  simp [hBne, hDne]

/-- The regex match succeeds on any input with a matching prefix, whatever
follows the device digit group. -/
theorem from_chars_ne_none (B D t : List Char) (hBne : B ≠ [])
    (hBd : B.all Char.isDigit = true) (hDne : D ≠ [])
    (hDd : D.all Char.isDigit = true) :
    from_chars ("/dev/spidev".data ++ (B ++ '.' :: (D ++ t))) ≠ none := by
  have htake1 : takeDigits (B ++ '.' :: (D ++ t)) = (B, '.' :: (D ++ t)) :=
    takeDigits_maximal B ('.' :: (D ++ t)) hBd
      (by intro c hc; simp at hc; rw [← hc]; decide)
  obtain ⟨d, D', rfl⟩ : ∃ d D', D = d :: D' := by
    cases D with
    | nil => exact absurd rfl hDne
    | cons d D' => exact ⟨d, D', rfl⟩
  have hd : d.isDigit = true := by
    rw [List.all_cons, Bool.and_eq_true] at hDd
    exact hDd.1
  have hne : (takeDigits (d :: (D' ++ t))).1 ≠ [] :=
    takeDigits_fst_ne_nil d (D' ++ t) hd
  simp only [from_chars, dropPrefixChars_append, htake1]
  simp [hBne]
  intro h
  exact absurd h hne

/-- A successful regex match exposes the matched decomposition of the
input. -/
theorem from_chars_some_decomp (cs : List Char) (w : SpiWrapper)
    (hfs : from_chars cs = some w) :
    ∃ B D t : List Char, B ≠ [] ∧ B.all Char.isDigit = true ∧ D ≠ [] ∧
      D.all Char.isDigit = true ∧
      cs = "/dev/spidev".data ++ (B ++ '.' :: (D ++ t)) := by
  unfold from_chars at hfs
  split at hfs
  · exact absurd hfs (by simp)
  · rename_i rest hdrop
    split at hfs
    · exact absurd hfs (by simp)
    · rename_i hb
      split at hfs
      · exact absurd hfs (by simp)
      · rename_i c rest2 h2
        split at hfs
        · rename_i hc
          split at hfs
          · exact absurd hfs (by simp)
          · rename_i hd
            obtain ⟨hr1, hr2, _⟩ := takeDigits_parts rest
            obtain ⟨hs1, hs2, _⟩ := takeDigits_parts rest2
            refine ⟨(takeDigits rest).1, (takeDigits rest2).1,
              (takeDigits rest2).2, hb, hr2, hd, hs2, ?_⟩
            have hsdata : cs = "/dev/spidev".data ++ rest :=
              (dropPrefixChars_iff _ _ _).mp hdrop
            have hrest : (takeDigits rest).1 ++
                '.' :: ((takeDigits rest2).1 ++ (takeDigits rest2).2) = rest := by
              rw [hs1, ← hc, ← h2, hr1]
            rw [hsdata, hrest]
        · exact absurd hfs (by simp)

/-- C5 (amended): a string of the exact form `/dev/spidev<B>.<D>` parses to
bus `int(B)` and device `int(D)`; and `from_str` raises ValueError exactly
for the strings with no prefix of that form — `re.match` anchors only at
the start, so trailing characters after the device digits are accepted. -/
theorem from_str_spec :
    (∀ B D : List Char, B ≠ [] → B.all Char.isDigit = true → D ≠ [] →
        D.all Char.isDigit = true →
        SpiWrapper.from_str (String.mk ("/dev/spidev".data ++ (B ++ '.' :: D))) =
          some (SpiWrapper.init (digitsToNat B) (digitsToNat D))) ∧
    (∀ s : String, SpiWrapper.from_str s = none ↔ ¬ prefixMatches s) := by
  constructor
  · intro B D hBne hBd hDne hDd
    have := from_chars_eval B D [] hBne hBd hDne hDd
      (by intro c hc; simp at hc)
    simpa [SpiWrapper.from_str] using this
  · intro s
    constructor
    · intro hnone hpm
      obtain ⟨B, D, t, hBne, hBd, hDne, hDd, hs⟩ := hpm
      apply from_chars_ne_none B D t hBne hBd hDne hDd
      rw [← hs]
      exact hnone
    · intro hnpm
      cases hfs : SpiWrapper.from_str s with
      | none => rfl
      | some w =>
          exact absurd (from_chars_some_decomp s.data w hfs) hnpm

/-- C5 (witness): a concrete exact-form string parses to its two digit
groups, and the failure characterization instantiates on a concrete
non-matching string. -/
theorem from_str_spec_witness :
    SpiWrapper.from_str (String.mk ("/dev/spidev".data ++ (['1'] ++ '.' :: ['2']))) =
      some (SpiWrapper.init (digitsToNat ['1']) (digitsToNat ['2'])) ∧
    (SpiWrapper.from_str "nope" = none ↔ ¬ prefixMatches "nope") :=
  ⟨from_str_spec.1 ['1'] ['2'] (by decide) (by decide) (by decide) (by decide),
   from_str_spec.2 "nope"⟩

/-- C5 (counterexample): the string `/dev/spidev1.2x` is not of the exact
form `/dev/spidev<B>.<D>` (the anchored parse rejects it), yet `from_str`
does not raise: it returns the handle with bus 1 and device 2, because
`re.match` ignores trailing characters. -/
theorem from_str_counterexample :
    SpiWrapper.from_str "/dev/spidev1.2x" = some (SpiWrapper.init 1 2) ∧
    exactFormParse "/dev/spidev1.2x" = none := by
  constructor <;> decide

/-- Appending traces composes the replay of `recordReset` events. -/
theorem applyRecords_append (a b : List Event) (r : Bool) :
    applyRecords (a ++ b) r = applyRecords b (applyRecords a r) := by
  simp [applyRecords, List.foldl_append]

/-- A trace that never records the opposite value leaves the flag alone. -/
theorem applyRecords_of_not_mem (b : Bool) :
    ∀ evs : List Event, Event.recordReset (!b) ∉ evs → applyRecords evs b = b := by
  intro evs
  induction evs with
  | nil => intro _; rfl
  | cons e t ih =>
      intro h
      have ht : Event.recordReset (!b) ∉ t := fun hm => h (List.mem_cons_of_mem _ hm)
      have he : e ≠ Event.recordReset (!b) := fun hm => h (hm ▸ List.mem_cons_self _ _)
      cases e with
      | recordReset c =>
          have hcb : c = b := by
            cases b <;> cases c <;> simp_all
          subst hcb
          simpa [applyRecords] using ih ht
      | gpioSetupOut p => simpa [applyRecords] using ih ht
      | gpioOutput p l => simpa [applyRecords] using ih ht
      | sleep d => simpa [applyRecords] using ih ht
      | subscribeEvents ns => simpa [applyRecords] using ih ht
      | spiOpen => simpa [applyRecords] using ih ht
      | spiClose => simpa [applyRecords] using ih ht
      | spiSetClock hz => simpa [applyRecords] using ih ht

/-- Every single method invocation changes the recorded reset flag exactly
as the `recordReset` events of its own trace dictate: an invocation whose
trace records nothing (that is, one that is not an `assert_reset` and does
not internally call `assert_reset`) leaves the flag unchanged. -/
theorem step_reset_flag (opts : SessionOptions) (s : ProbeState) (op : Op) :
    (step opts s op).state.reset = applyRecords (step opts s op).events s.reset := by
  cases op with
  | opConnect p =>
      cases p with
      | none => rfl
      | some q => cases q <;> rfl
  | opChangeOptions ev =>
      simp only [step, RaspberryPiProbe._change_options]
      split
      · simp [applyRecords]
      · split
        · simp [applyRecords]
        · split <;> simp [applyRecords]
  | _ => rfl

/-- Over a whole sequence of invocations the recorded reset flag equals the
replay of the `recordReset` events of the collected trace. -/
theorem run_reset_flag (opts : SessionOptions) :
    ∀ (ops : List Op) (s : ProbeState),
      (run opts s ops).1.reset = applyRecords (run opts s ops).2 s.reset := by
  intro ops
  induction ops with
  | nil => intro s; rfl
  | cons op rest ih =>
      intro s
      simp only [run, applyRecords_append]
      rw [ih (step opts s op).state, step_reset_flag]

/-- C4: after `assert_reset(b)`, `is_reset_asserted()` keeps returning `b`
across any sequence of probe method invocations whose trace never records
the opposite value (that is, until `assert_reset(not b)` runs, directly or
inside `reset()`); and the query depends only on the recorded flag — two
states agreeing on the flag answer alike, whatever their hardware-facing
components. -/
theorem is_reset_asserted_tracks_flag (opts : SessionOptions) (s : ProbeState)
    (b : Bool) (ops : List Op)
    (h : Event.recordReset (!b) ∉
      (run opts (RaspberryPiProbe.assert_reset opts s b).1 ops).2) :
    RaspberryPiProbe.is_reset_asserted
        (run opts (RaspberryPiProbe.assert_reset opts s b).1 ops).1 = b ∧
    ∀ s1 s2 : ProbeState, s1.reset = s2.reset →
      RaspberryPiProbe.is_reset_asserted s1 = RaspberryPiProbe.is_reset_asserted s2 := by
  constructor
  · have hrun := run_reset_flag opts ops (RaspberryPiProbe.assert_reset opts s b).1
    have hstart : (RaspberryPiProbe.assert_reset opts s b).1.reset = b := rfl
    rw [RaspberryPiProbe.is_reset_asserted, hrun, hstart]
    exact applyRecords_of_not_mem b _ h
  · intro s1 s2 h12
    simpa [RaspberryPiProbe.is_reset_asserted] using h12

/-- C4 (witness): concrete run — assert reset, then open, a failing
read_dp, a silent swj_sequence and a disconnect; the query still returns
true. -/
theorem is_reset_asserted_tracks_flag_witness :
    Event.recordReset (!true) ∉
      (run opts0 (RaspberryPiProbe.assert_reset opts0 probe0 true).1
        [Op.opOpen, Op.opReadDp 0 true, Op.opSwjSequence 8 255,
         Op.opDisconnect]).2 ∧
    RaspberryPiProbe.is_reset_asserted
        (run opts0 (RaspberryPiProbe.assert_reset opts0 probe0 true).1
          [Op.opOpen, Op.opReadDp 0 true, Op.opSwjSequence 8 255,
           Op.opDisconnect]).1 = true :=
  ⟨by decide,
   (is_reset_asserted_tracks_flag opts0 probe0 true
      [Op.opOpen, Op.opReadDp 0 true, Op.opSwjSequence 8 255,
       Op.opDisconnect] (by decide)).1⟩
